import Mathlib

/-!
Verification of the TwitchPulse session-aggregation pipeline.

Shallow embedding of the backend sources:
 * `src/backend/redis_manager.py` — the Aggregation Store (`Store` and the
   write/read primitives, with per-key time-to-live bookkeeping in `TTLs`);
 * `src/backend/main.py` — the Event Worker loop (`workerRun`), the stop
   sequence (`stopSessionRun`) and the stats endpoint (`getStatsEndpoint`);
 * `src/backend/seventv.py` — 7TV emote matching (`matchMessage`);
 * `src/backend/analyzer.py` — emote extraction (`extractEmotes`).

Python strings are modelled by `String`, Redis hashes and sorted sets by
association lists, Python floats by `Rat`, and the wall clock by explicit
integer parameters.  Helper functions over `List Char` replace the core
`String` utilities so that closed runs reduce inside the kernel.
-/

namespace TwitchPulse

/-- Model of Python `str.lower` (maps every character). -/
def pyLower (s : String) : String := ⟨s.data.map Char.toLower⟩

/-- Model of Python `str.upper` (maps every character). -/
def pyUpper (s : String) : String := ⟨s.data.map Char.toUpper⟩

/-- Model of Python `str.isdigit` on ASCII data: nonempty and all digits. -/
def pyIsDigit (s : String) : Bool := !s.data.isEmpty && s.data.all Char.isDigit

/-- Hash lookup, as Python `dict.get(k)` / Redis `HGET`: value of the first
binding of `k`. -/
def hget (h : List (String × String)) (k : String) : Option String :=
  (h.find? (fun p => decide (p.1 = k))).map (fun p => p.2)

/-- Redis `HSET` of a single field: overwrite the binding of `k` if present,
otherwise append it. -/
def hsetField (h : List (String × String)) (k v : String) : List (String × String) :=
  if h.any (fun p => decide (p.1 = k)) then
    h.map (fun p => if p.1 = k then (k, v) else p)
  else h ++ [(k, v)]

/-- Redis `HSETNX`: set the field only when it is absent. -/
def hsetnx (h : List (String × String)) (k v : String) : List (String × String) :=
  if h.any (fun p => decide (p.1 = k)) then h else h ++ [(k, v)]

/-- Redis `HINCRBY <k> 1` on a counter hash (absent fields count as 0). -/
def bumpNat : List (String × Nat) → String → List (String × Nat)
  | [], k => [(k, 1)]
  | p :: rest, k => if p.1 = k then (p.1, p.2 + 1) :: rest else p :: bumpNat rest k

/-- Value of a counter-hash field, 0 when absent (Python `int(h.get(k, 0))`). -/
def natOf (h : List (String × Nat)) (k : String) : Nat :=
  ((h.find? (fun p => decide (p.1 = k))).map (fun p => p.2)).getD 0

/-- Redis `HINCRBYFLOAT` on a float hash (absent fields count as 0). -/
def bumpRat : List (String × Rat) → String → Rat → List (String × Rat)
  | [], k, v => [(k, v)]
  | p :: rest, k, v => if p.1 = k then (p.1, p.2 + v) :: rest else p :: bumpRat rest k v

/-- Stable insertion of one element into a sorted list, `le a b` meaning
`a` may come before `b`. -/
def insertLe {α : Type} (le : α → α → Bool) (a : α) : List α → List α
  | [] => [a]
  | b :: l => if le a b then a :: b :: l else b :: insertLe le a l

/-- Stable insertion sort; with a reflexive `le` an earlier element stays in
front of later elements it ties with, as Python `list.sort` guarantees. -/
def sortLe {α : Type} (le : α → α → Bool) : List α → List α
  | [] => []
  | a :: l => insertLe le a (sortLe le l)

/-- Session time-to-live in seconds: `settings.session_ttl_seconds`
(config.py, `SESSION_TTL`, default `2 * 60 * 60`). -/
def sessionTTL : Nat := 7200

/-- Timeline cap: the `-1200` bound of `LTRIM` in `append_timeline`. -/
def timelineCap : Nat := 1200

/-- Remaining time-to-live of every key of one session namespace.  A Redis
`EXPIRE` is modelled as setting the corresponding field to `sessionTTL`. -/
structure TTLs where
  info : Nat
  messages : Nat
  chatters : Nat
  emotes : Nat
  emoteNames : Nat
  emoteImages : Nat
  sentiment : Nat
  timeline : Nat
deriving Repr, DecidableEq

/-- TTL state in which no key has a pending expiry refresh. -/
def TTLs.zero : TTLs := ⟨0, 0, 0, 0, 0, 0, 0, 0⟩

/-- One session namespace of the Aggregation Store (redis_manager.py):
`info` hash, `messages` counter, `chatters` sorted set, `emotes` counter
hash plus `emote_names` / `emote_images` hashes, `sentiment` hash (split
into its integer count fields and its float `*_sum` fields), and the
`timeline` list. -/
structure Store where
  info : List (String × String)
  messages : Option Int
  chatters : List (String × Nat)
  emotes : List (String × Nat)
  emoteNames : List (String × String)
  emoteImages : List (String × String)
  sentCounts : List (String × Nat)
  sentSums : List (String × Rat)
  timeline : List Int
  ttl : TTLs
deriving Repr, DecidableEq

/-- Namespace with no keys (state before `initialize_session` or after the
TTL reaped everything). -/
def Store.empty : Store := ⟨[], none, [], [], [], [], [], [], [], TTLs.zero⟩

/-- Embedding of `RedisManager.close_session`: one `HSET` on the `info`
hash (status and `ended_at`), with no expiry refresh. -/
def closeSession (s : Store) (status endedAt : String) : Store :=
  { s with info := hsetField (hsetField s.info "status" status) "ended_at" endedAt }

/-- Embedding of `RedisManager.increment_message_count` (amount 1):
`INCRBY` on the counter followed by `EXPIRE` of that key. -/
def incrementMessageCount (s : Store) : Store :=
  { s with messages := some (s.messages.getD 0 + 1),
           ttl := { s.ttl with messages := sessionTTL } }

/-- Embedding of `RedisManager.increment_chatter`: `ZINCRBY` by 1 on the
lower-cased username, then `EXPIRE` of the chatters key. -/
def incrementChatter (s : Store) (username : String) : Store :=
  { s with chatters := bumpNat s.chatters (pyLower username),
           ttl := { s.ttl with chatters := sessionTTL } }

/-- Embedding of `RedisManager.increment_emotes`: early return on an empty
list, otherwise per pair `HINCRBY` on the counts and `HSETNX` on the names,
then `EXPIRE` of the two keys. -/
def incrementEmotes (s : Store) (emotes : List (String × String)) : Store :=
  if emotes = [] then s
  else
    { s with emotes := emotes.foldl (fun m p => bumpNat m p.1) s.emotes,
             emoteNames := emotes.foldl (fun m p => hsetnx m p.1 p.2) s.emoteNames,
             ttl := { s.ttl with emotes := sessionTTL, emoteNames := sessionTTL } }

/-- Embedding of `RedisManager.set_emote_image`: early return on an empty
URL, otherwise `HSET` plus `EXPIRE` of the images key. -/
def setEmoteImage (s : Store) (emoteId imageUrl : String) : Store :=
  if imageUrl = "" then s
  else
    { s with emoteImages := hsetField s.emoteImages emoteId imageUrl,
             ttl := { s.ttl with emoteImages := sessionTTL } }

/-- Embedding of `RedisManager.update_sentiment`: `HINCRBY` on the label
count, `HINCRBYFLOAT` on the label sum, `EXPIRE` of the sentiment key. -/
def updateSentiment (s : Store) (label : String) (score : Rat) : Store :=
  { s with sentCounts := bumpNat s.sentCounts label,
           sentSums := bumpRat s.sentSums (label ++ "_sum") score,
           ttl := { s.ttl with sentiment := sessionTTL } }

/-- Semantics of `LTRIM key -cap -1`: keep only the `cap` most recent
entries (the whole list when it is shorter). -/
def trimLast (cap : Nat) (l : List Int) : List Int := (l.reverse.take cap).reverse

/-- Embedding of `RedisManager.append_timeline`: `RPUSH` of the timestamp,
`LTRIM` to the cap, `EXPIRE` of the timeline key. -/
def appendTimeline (s : Store) (timestamp : Int) : Store :=
  { s with timeline := trimLast timelineCap (s.timeline ++ [timestamp]),
           ttl := { s.ttl with timeline := sessionTTL } }

/-- Embedding of `RedisManager.initialize_session`: `purge_session` deletes
the whole namespace, so the result does not depend on the prior store; the
pipeline then writes the `info` hash, zeroes the message counter and issues
`EXPIRE` for every key of the namespace. -/
def initializeSession (channel : String) (duration : Nat) (startedAt : String) : Store :=
  { Store.empty with
      info := [("channel", pyLower channel), ("duration", toString duration),
               ("status", "active"), ("started_at", startedAt)],
      messages := some 0,
      ttl := ⟨sessionTTL, sessionTTL, sessionTTL, sessionTTL,
              sessionTTL, sessionTTL, sessionTTL, sessionTTL⟩ }

/-- Python `round(x, 2)` on exact rationals: round half-up to two decimal
places (the float of the source is modelled by `Rat`). -/
def round2 (q : Rat) : Rat := ((round (q * 100) : Int) : Rat) / 100

/-- Result of `RedisManager._format_sentiment`: the three counts and the
three rounded percentages. -/
structure SentimentSummary where
  positive : Nat
  negative : Nat
  neutral : Nat
  positivePct : Rat
  negativePct : Rat
  neutralPct : Rat
deriving Repr, DecidableEq

/-- Embedding of `RedisManager._format_sentiment`: counts read from the
sentiment hash with default 0, denominator `max(positive+negative+neutral, 1)`,
each percentage `round((count / total) * 100, 2)`. -/
def formatSentiment (sent : List (String × Nat)) : SentimentSummary :=
  { positive := natOf sent "positive",
    negative := natOf sent "negative",
    neutral := natOf sent "neutral",
    positivePct := round2 ((natOf sent "positive" : Rat) /
      ((max (natOf sent "positive" + natOf sent "negative" + natOf sent "neutral") 1 : Nat) : Rat) * 100),
    negativePct := round2 ((natOf sent "negative" : Rat) /
      ((max (natOf sent "positive" + natOf sent "negative" + natOf sent "neutral") 1 : Nat) : Rat) * 100),
    neutralPct := round2 ((natOf sent "neutral" : Rat) /
      ((max (natOf sent "positive" + natOf sent "negative" + natOf sent "neutral") 1 : Nat) : Rat) * 100) }

/-- One row of the emote leaderboard returned by `_format_top_emotes`. -/
structure TopEmote where
  id : String
  name : String
  count : Nat
  imageUrl : String
deriving Repr, DecidableEq

/-- Embedding of `RedisManager._emote_cdn_url` with its default theme and
scale arguments. -/
def emoteCdnUrl (emoteId : String) : String :=
  "https://static-cdn.jtvnw.net/emoticons/v2/" ++ emoteId ++ "/default/dark/2.0"

/-- Embedding of `RedisManager._format_top_emotes`: stable sort of the
count pairs by descending count (Python `sort(reverse=True)` keeps ties in
hash order), truncation to the limit, then name lookup with the identifier
as fallback and image lookup with the CDN URL as fallback for a missing or
empty entry. -/
def formatTopEmotes (counts : List (String × Nat)) (names images : List (String × String))
    (limit : Nat) : List TopEmote :=
  ((sortLe (fun a b => Nat.ble b.2 a.2) counts).take limit).map (fun p =>
    { id := p.1,
      name := (hget names p.1).getD p.1,
      count := p.2,
      imageUrl :=
        match hget images p.1 with
        | some u => if u = "" then emoteCdnUrl p.1 else u
        | none => emoteCdnUrl p.1 })

/-- Byte-wise lexicographic order on strings, as Redis compares members. -/
def strLtB : List Char → List Char → Bool
  | [], [] => false
  | [], _ :: _ => true
  | _ :: _, [] => false
  | a :: as, b :: bs =>
    if a.toNat < b.toNat then true
    else if b.toNat < a.toNat then false
    else strLtB as bs

/-- Redis `ZREVRANGE 0 (n-1) WITHSCORES`: members by descending score,
ties by descending member, truncated to `n`. -/
def zrevrange (zs : List (String × Nat)) (n : Nat) : List (String × Nat) :=
  (sortLe (fun a b => Nat.ble (b.2 + 1) a.2 || (Nat.beq a.2 b.2 && !strLtB a.1.data b.1.data)) zs).take n

/-- Embedding of `RedisManager._count_recent`: 0 for an empty list,
otherwise the number of entries at or after `now - window`. -/
def countRecent (entries : List Int) (nowSec window : Int) : Nat :=
  if entries = [] then 0
  else entries.countP (fun ts => decide (nowSec - window ≤ ts))

/-- Snapshot assembled by `RedisManager.get_stats` (top-N fixed at its
default 10). -/
structure Stats where
  sessionInfo : List (String × String)
  messageCount : Int
  chatterCount : Nat
  messagesPerMinute : Nat
  topChatters : List (String × Nat)
  topEmotes : List TopEmote
  sentiment : SentimentSummary
deriving Repr, DecidableEq

/-- Embedding of `RedisManager.get_stats`: the reads are combined into one
snapshot; `nowSec` is the wall clock of the read used by `_count_recent`
with its 60-second window. -/
def getStats (s : Store) (nowSec : Int) : Stats :=
  { sessionInfo := s.info,
    messageCount := s.messages.getD 0,
    chatterCount := s.chatters.length,
    messagesPerMinute := countRecent s.timeline nowSec 60,
    topChatters := zrevrange s.chatters 10,
    topEmotes := formatTopEmotes s.emotes s.emoteNames s.emoteImages 10,
    sentiment := formatSentiment s.sentCounts }

/-- Embedding of the `GET /api/stats/{session_id}` handler in main.py: the
stats dictionary itself is always truthy, so the 404 guard
`not stats or not stats.get("session")` fires exactly when the `info` hash
is empty (no session metadata). -/
def getStatsEndpoint (s : Store) (nowSec : Int) : Except Nat Stats :=
  if (getStats s nowSec).sessionInfo = [] then Except.error 404
  else Except.ok (getStats s nowSec)

/-- Embedding of `_stop_session` in main.py, restricted to its registry and
store effects.  The registry is the key set of `active_sessions`;
`pop(session_id, None)` returns early when the identifier is absent.  When
present, the task shutdown steps touch no store key; the store effects are
`close_session` with the resolved terminal status followed by one
`append_timeline` stamped at shutdown. -/
def stopSessionRun (reg : List String) (s : Store) (sessionId : String)
    (fromTimer : Bool) (endedAt : String) (nowTs : Int) : List String × Store :=
  if sessionId ∈ reg then
    (reg.erase sessionId,
     appendTimeline (closeSession s (if fromTimer then "complete" else "stopped") endedAt) nowTs)
  else (reg, s)

/-- Character class of the token regular expression `[A-Za-z0-9_]+` shared
by seventv.py (`TOKEN_REGEX`) and analyzer.py (`re.findall`). -/
def isWordChar (c : Char) : Bool := c.isAlphanum || c == '_'

/-- Accumulating scanner behind `tokenize`: `cur` holds the characters of
the current token in reverse. -/
def tokenizeAux : List Char → List Char → List String
  | [], [] => []
  | [], cur => [⟨cur.reverse⟩]
  | c :: rest, cur =>
    if isWordChar c then tokenizeAux rest (c :: cur)
    else if cur.isEmpty then tokenizeAux rest []
    else ⟨cur.reverse⟩ :: tokenizeAux rest []

/-- Model of `re.findall(r"[A-Za-z0-9_]+", s)`: the maximal runs of word
characters, in order. -/
def tokenize (s : String) : List String := tokenizeAux s.data []

/-- One cached 7TV emote (`SevenTVEmote` in seventv.py): the key is the
prefixed identifier `7tv:<id>`. -/
structure SevenTVEmote where
  key : String
  name : String
  imageUrl : String
deriving Repr, DecidableEq

/-- Scanning loop of `SevenTVService.match_message`: look each token up by
its lower-cased form and keep the first hit per emote key (`seen`). -/
def matchGo (lookup : List (String × SevenTVEmote)) (seen : List String) :
    List String → List SevenTVEmote
  | [] => []
  | tok :: rest =>
    match lookup.find? (fun p => decide (p.1 = pyLower tok)) with
    | some p =>
      if p.2.key ∈ seen then matchGo lookup seen rest
      else p.2 :: matchGo lookup (p.2.key :: seen) rest
    | none => matchGo lookup seen rest

/-- Embedding of `SevenTVService.match_message` for one session: `lookup`
is the session emote dictionary keyed by lower-cased emote name; an empty
dictionary or empty content short-circuits to no matches. -/
def matchMessage (lookup : List (String × SevenTVEmote)) (content : String) :
    List SevenTVEmote :=
  if lookup = [] ∨ content = "" then [] else matchGo lookup [] (tokenize content)

/-- Model of Python `str.split(sep)` for a one-character separator. -/
def splitOnChar (sep : Char) : List Char → List (List Char)
  | [] => [[]]
  | c :: rest =>
    if c = sep then [] :: splitOnChar sep rest
    else
      match splitOnChar sep rest with
      | [] => [[c]]
      | p :: ps => (c :: p) :: ps

/-- Digit-run parser behind `parseIntPy`. -/
def parseNatAux : List Char → Nat → Option Nat
  | [], acc => some acc
  | c :: rest, acc =>
    if c.isDigit then parseNatAux rest (acc * 10 + (c.toNat - 48)) else none

/-- Model of Python `int(str)` on canonical inputs: an optional minus sign
followed by decimal digits; anything else raises, modelled as `none`. -/
def parseIntPy : List Char → Option Int
  | '-' :: rest =>
    if rest.isEmpty then none else (parseNatAux rest 0).map (fun n => -(n : Int))
  | l => if l.isEmpty then none else (parseNatAux l 0).map (fun n => (n : Int))

/-- Normalisation of one Python slice index against length `n`: negative
indices count from the end, both ends clamp into `[0, n]`. -/
def clampIndex (n : Nat) (i : Int) : Nat :=
  if i < 0 then ((n : Int) + i).toNat else min i.toNat n

/-- Model of the Python slice `s[a:b]`. -/
def pySlice (s : String) (a b : Int) : String :=
  ⟨((s.data.drop (clampIndex s.data.length a)).take
      (clampIndex s.data.length b - clampIndex s.data.length a))⟩

/-- The `KNOWN_TEXTUAL_EMOTES` set of analyzer.py. -/
def knownTextualEmotes : List String :=
  ["KEKW", "LUL", "OMEGALUL", "PogChamp", "POGGERS", "Kappa", "FeelsBadMan",
   "FeelsGoodMan", "BibleThump", "PogU", "monkaS", "monkaW", "PepeHands",
   "PepeLaugh", "Pepega", "PeepoClap", "Clap", "HeyGuys", "4Head"]

/-- Span parser of `MessageAnalyzer._extract_emotes`: an empty span is
skipped; a span must split on `-` into exactly two integers; the emitted
name is the slice `content[start : end + 1]`. -/
def parseSpan (content : String) (emoteId : String) (span : List Char) :
    List (String × String) :=
  if span.isEmpty then []
  else
    match splitOnChar '-' span with
    | [a, b] =>
      match parseIntPy a, parseIntPy b with
      | some st, some en => [(emoteId, pySlice content st (en + 1))]
      | _, _ => []
    | _ => []

/-- Entry parser of `MessageAnalyzer._extract_emotes`: an empty entry is
skipped; an entry must split on `:` into exactly an identifier and a
comma-separated span list; one pair is emitted per valid span. -/
def parseEntry (content : String) (entry : List Char) : List (String × String) :=
  if entry.isEmpty then []
  else
    match splitOnChar ':' entry with
    | [idPart, positions] =>
      (splitOnChar ',' positions).flatMap (parseSpan content ⟨idPart⟩)
    | _ => []

/-- Tag branch of `MessageAnalyzer._extract_emotes`: entries separated by
`/`. -/
def tagEmotes (content : String) (emoteTag : String) : List (String × String) :=
  (splitOnChar '/' emoteTag.data).flatMap (parseEntry content)

/-- Fallback branch of `MessageAnalyzer._extract_emotes`: tokens found in
`KNOWN_TEXTUAL_EMOTES` directly or after upper-casing, emitted under their
canonical spelling. -/
def textualEmotes (content : String) : List (String × String) :=
  (tokenize content).flatMap (fun tok =>
    if tok ∈ knownTextualEmotes then [(tok, tok)]
    else if pyUpper tok ∈ knownTextualEmotes then [(pyUpper tok, pyUpper tok)]
    else [])

/-- Tag branch of `MessageAnalyzer._extract_emotes`: it runs only when the
`emotes` tag is present and nonempty (Python truthiness of
`tags.get("emotes")`). -/
def tagBranch (content : String) (tags : List (String × String)) :
    List (String × String) :=
  match hget tags "emotes" with
  | some t => if t = "" then [] else tagEmotes content t
  | none => []

/-- Embedding of `MessageAnalyzer._extract_emotes`: when the tag branch
produced nothing (`if not emotes:`) the textual fallback runs. -/
def extractEmotes (content : String) (tags : List (String × String)) :
    List (String × String) :=
  if tagBranch content tags = [] then textualEmotes content
  else tagBranch content tags

/-- Classification result of `MessageAnalyzer.analyze` (the classifier
itself is an external collaborator and stays abstract in the worker). -/
structure AnalysisResult where
  sentimentLabel : String
  sentimentScore : Rat
  emotes : List (String × String)
deriving Repr, DecidableEq

/-- One raw chat event as the producer enqueues it (twitch_client.py
payload).  Fields read through `dict.get` in the worker are optional. -/
structure RawEvent where
  username : Option String
  content : Option String
  tags : Option (List (String × String))
  timestamp : Option Int
deriving Repr, DecidableEq

/-- External collaborators of the worker, fixed for one session: the
classifier, the 7TV session dictionary, and the emote metadata lookup
(`EmoteService.get_emote_metadata`, returning an image URL or the empty
string for a failed lookup). -/
structure WorkerEnv where
  analyze : String → List (String × String) → AnalysisResult
  sevenTVLookup : List (String × SevenTVEmote)
  emoteImageLookup : String → String → String

/-- Model of the dict comprehension in `_cache_emote_images`: keys in
first-insertion order, the last value for a repeated key winning. -/
def uniquePairs (l : List (String × String)) : List (String × String) :=
  l.foldl (fun acc p =>
    if acc.any (fun q => decide (q.1 = p.1)) then
      acc.map (fun q => if q.1 = p.1 then (q.1, p.2) else q)
    else acc ++ [p]) []

/-- Embedding of `_cache_emote_images` in main.py: per unique identifier,
non-numeric identifiers store an empty URL (which `set_emote_image`
discards), numeric identifiers store the looked-up URL when nonempty. -/
def cacheEmoteImages (env : WorkerEnv) (s : Store) (emotes : List (String × String)) : Store :=
  (uniquePairs emotes).foldl (fun st p =>
    if !(pyIsDigit p.1) then setEmoteImage st p.1 ""
    else
      if env.emoteImageLookup p.1 p.2 = "" then st
      else setEmoteImage st p.1 (env.emoteImageLookup p.1 p.2)) s

/-- Exceptions the worker loop body can raise (they are caught by the
outer handler of `_message_worker`, which then logs and exits). -/
inductive PyError where
  | unboundLocal
  | attributeError
deriving Repr, DecidableEq

/-- Python locals of `_message_worker` that survive from one loop
iteration to the next and are read by the mis-indented lines 178-193:
`content` and `analysis` are only assigned inside `if not terminate`. -/
structure WorkerLocals where
  content : Option String
  analysis : Option AnalysisResult

/-- Timestamp fold of line 192: `int(message.get("timestamp") or now)` —
a missing or zero (falsy) timestamp is replaced by the wall clock. -/
def eventTimestamp (e : RawEvent) (nowTs : Int) : Int :=
  match e.timestamp with
  | some t => if t = 0 then nowTs else t
  | none => nowTs

/-- Lines 178-193 of main.py, which sit OUTSIDE `if not terminate:` in the
source: they run for the drain sentinel too, on the locals left over from
the previous iteration (`PyError.unboundLocal` when there was none).  The
sentiment update and the timeline append sit INSIDE `if custom_emotes:`;
in the timeline branch the sentinel path dereferences `message = None`
(`PyError.attributeError`).  An error result carries the store as already
mutated at the raise point. -/
def dedentedTail (env : WorkerEnv) (locals : WorkerLocals) (s : Store)
    (message : Option RawEvent) (nowTs : Int) :
    Except (PyError × Store) (WorkerLocals × Store) :=
  match locals.analysis, locals.content with
  | some analysis, some content =>
    let custom := matchMessage env.sevenTVLookup content
    let batched := analysis.emotes ++ custom.map (fun em => (em.key, em.name))
    let s1 := if batched.isEmpty then s else incrementEmotes s batched
    let s2 := if analysis.emotes.isEmpty then s1 else cacheEmoteImages env s1 analysis.emotes
    if custom.isEmpty then Except.ok (locals, s2)
    else
      let s3 := custom.foldl (fun st em => setEmoteImage st em.key em.imageUrl) s2
      let s4 := updateSentiment s3 analysis.sentimentLabel analysis.sentimentScore
      match message with
      | some e => Except.ok (locals, appendTimeline s4 (eventTimestamp e nowTs))
      | none => Except.error (PyError.attributeError, s4)
  | _, _ => Except.error (PyError.unboundLocal, s)

/-- One iteration of the `_message_worker` loop for a dequeued item.  For a
real event: `content`/`tags` reads with their defaults, the message counter
and chatter increments, classification, then the dedented tail.  For the
sentinel (`None`): the guarded block is skipped and the dedented tail runs
on the stale locals.  The boolean is the `terminate` flag checked after
`finally`. -/
def processItem (env : WorkerEnv) (locals : WorkerLocals) (s : Store)
    (item : Option RawEvent) (nowTs : Int) :
    Except (PyError × Store) (WorkerLocals × Store × Bool) :=
  match item with
  | some e =>
    let content := e.content.getD ""
    let tags := e.tags.getD []
    let s1 := incrementMessageCount s
    let s2 := incrementChatter s1 (e.username.getD "anonymous")
    let analysis := env.analyze content tags
    (dedentedTail env ⟨some content, some analysis⟩ s2 item nowTs).map
      (fun r => (r.1, r.2, false))
  | none =>
    (dedentedTail env locals s item nowTs).map (fun r => (r.1, r.2, true))

/-- How a finite run of the worker loop ended: `crashed` when the loop body
raised (the outer handler of `_message_worker` catches it and the task
finishes), `finished` when the sentinel `break` was reached, `drained` when
the supplied queue items ran out with the worker still waiting. -/
inductive WorkerOutcome where
  | crashed (err : PyError) (s : Store)
  | finished (s : Store)
  | drained (s : Store)
deriving Repr, DecidableEq

/-- Loop of `_message_worker` over a finite list of dequeued items. -/
def workerRunAux (env : WorkerEnv) (nowTs : Int) :
    List (Option RawEvent) → WorkerLocals → Store → WorkerOutcome
  | [], _, s => WorkerOutcome.drained s
  | item :: rest, locals, s =>
    match processItem env locals s item nowTs with
    | Except.error (e, s1) => WorkerOutcome.crashed e s1
    | Except.ok (_, s1, true) => WorkerOutcome.finished s1
    | Except.ok (locals1, s1, false) => workerRunAux env nowTs rest locals1 s1

/-- Embedding of `_message_worker`: starts with no locals bound, processes
the given queue items in order against the store. -/
def workerRun (env : WorkerEnv) (nowTs : Int) (s : Store)
    (queue : List (Option RawEvent)) : WorkerOutcome :=
  workerRunAux env nowTs queue ⟨none, none⟩ s

/-- Store state at the end of a finite worker run, whichever way it ended. -/
def outcomeStore : WorkerOutcome → Store
  | WorkerOutcome.crashed _ s => s
  | WorkerOutcome.finished s => s
  | WorkerOutcome.drained s => s

/-- Collaborator fixture: a classifier that labels everything positive with
no emotes, no 7TV emotes loaded for the session, no image metadata. -/
def envNoCustom : WorkerEnv :=
  { analyze := fun _ _ => ⟨"positive", 0, []⟩,
    sevenTVLookup := [],
    emoteImageLookup := fun _ _ => "" }

/-- Event fixture: an ordinary chat message that matches no 7TV emote. -/
def evPlain : RawEvent := ⟨some "alice", some "what a great play", some [], some 111⟩

/-- Collaborator fixture: a classifier that finds the textual emote `KEKW`
in the message `KEKW` and nothing otherwise; no 7TV emotes loaded. -/
def envKekw : WorkerEnv :=
  { analyze := fun c _ =>
      if c = "KEKW" then ⟨"neutral", 0, [("KEKW", "KEKW")]⟩ else ⟨"neutral", 0, []⟩,
    sevenTVLookup := [],
    emoteImageLookup := fun _ _ => "" }

/-- Event fixture: a chat message whose text is exactly `KEKW`. -/
def evKekw : RawEvent := ⟨some "bob", some "KEKW", some [], some 222⟩

/-- Store fixture: a freshly initialized session namespace. -/
def freshStore : Store := initializeSession "somechannel" 60 "t0"

/-! Helper lemmas about the association-list primitives. -/

theorem optionMapOr {α β : Type} (a b : Option α) (f : α → β) :
    (a.or b).map f = (a.map f).or (b.map f) := by
  cases a <;> rfl

theorem natOf_bumpNat (m : List (String × Nat)) (k' k : String) :
    natOf (bumpNat m k') k = natOf m k + (if k' = k then 1 else 0) := by
  induction m with
  | nil =>
    by_cases h : k' = k <;> simp [bumpNat, natOf, List.find?, h]
  | cons p rest ih =>
    by_cases hp : p.1 = k'
    · by_cases hk : p.1 = k
      · have : k' = k := hp ▸ hk
        simp [bumpNat, natOf, List.find?, hp, hk, this]
      · have : ¬(k' = k) := fun h => hk (hp.trans h)
        simp [bumpNat, natOf, List.find?, hp, hk, this]
    · by_cases hk : p.1 = k
      · have h1 : ¬(k' = k) := fun h => hp (hk.trans h.symm)
        have h2 : ¬(k = k') := fun h => h1 h.symm
        simp [bumpNat, natOf, List.find?, hp, hk, h1, h2]
      · simpa [bumpNat, natOf, List.find?, hp, hk] using ih

theorem natOf_foldl_bumpNat (pairs : List (String × String)) :
    ∀ (m : List (String × Nat)) (k : String),
      natOf (pairs.foldl (fun mm p => bumpNat mm p.1) m) k
        = natOf m k + pairs.countP (fun p => decide (p.1 = k)) := by
  induction pairs with
  | nil => intro m k; simp
  | cons p rest ih =>
    intro m k
    rw [List.foldl_cons, ih, natOf_bumpNat, List.countP_cons]
    by_cases h : p.1 = k <;> simp [h] <;> omega

theorem hget_append_single (h : List (String × String)) (k' v k : String) :
    hget (h ++ [(k', v)]) k = (hget h k).or (if k' = k then some v else none) := by
  unfold hget
  rw [List.find?_append, optionMapOr]
  by_cases hk : k' = k <;> simp [List.find?, hk]

theorem hget_isSome_of_any (h : List (String × String)) (k : String)
    (ha : h.any (fun p => decide (p.1 = k)) = true) : (hget h k).isSome := by
  unfold hget
  rcases List.any_eq_true.mp ha with ⟨p, hp, hpk⟩
  have : (h.find? (fun p => decide (p.1 = k))).isSome :=
    List.find?_isSome.mpr ⟨p, hp, hpk⟩
  simpa [Option.isSome_map] using this

theorem hget_hsetnx (h : List (String × String)) (k' v k : String) :
    hget (hsetnx h k' v) k = (hget h k).or (if k' = k then some v else none) := by
  unfold hsetnx
  by_cases ha : h.any (fun p => decide (p.1 = k')) = true
  · rw [if_pos ha]
    by_cases hk : k' = k
    · have hs : (hget h k).isSome := hget_isSome_of_any h k (hk ▸ ha)
      rcases Option.isSome_iff_exists.mp hs with ⟨v0, hv0⟩
      simp [hv0, Option.or]
    · simp [hk]
  · rw [if_neg ha]
    exact hget_append_single h k' v k

theorem hget_foldl_hsetnx (pairs : List (String × String)) :
    ∀ (h : List (String × String)) (k : String),
      hget (pairs.foldl (fun m p => hsetnx m p.1 p.2) h) k
        = (hget h k).or ((pairs.find? (fun p => decide (p.1 = k))).map (fun p => p.2)) := by
  induction pairs with
  | nil => intro h k; simp
  | cons p rest ih =>
    intro h k
    rw [List.foldl_cons, ih, hget_hsetnx, Option.or_assoc]
    by_cases hk : p.1 = k <;> simp [List.find?, hk]

theorem incrementEmotes_names (s : Store) (pairs : List (String × String)) (k : String) :
    hget ((incrementEmotes s pairs).emoteNames) k
      = (hget s.emoteNames k).or
          ((pairs.find? (fun p => decide (p.1 = k))).map (fun p => p.2)) := by
  by_cases hp : pairs = []
  · subst hp; simp [incrementEmotes]
  · simp only [incrementEmotes, if_neg hp]
    exact hget_foldl_hsetnx pairs s.emoteNames k

theorem incrementEmotes_counts (s : Store) (pairs : List (String × String)) (k : String) :
    natOf ((incrementEmotes s pairs).emotes) k
      = natOf s.emotes k + pairs.countP (fun p => decide (p.1 = k)) := by
  by_cases hp : pairs = []
  · subst hp; simp [incrementEmotes]
  · simp only [incrementEmotes, if_neg hp]
    exact natOf_foldl_bumpNat pairs s.emotes k

/-! Helper lemmas about the timeline trim. -/

theorem trimLast_length_le (cap : Nat) (l : List Int) : (trimLast cap l).length ≤ cap := by
  simp only [trimLast, List.length_reverse, List.length_take]
  exact min_le_left _ _

theorem trimLast_idem_append (cap : Nat) (l : List Int) (t : Int) :
    trimLast cap (trimLast cap l ++ [t]) = trimLast cap (l ++ [t]) := by
  simp only [trimLast, List.reverse_append, List.reverse_reverse, List.reverse_cons,
    List.reverse_nil, List.nil_append, List.singleton_append]
  cases cap with
  | zero => simp
  | succ c =>
    simp only [List.take_succ_cons, List.take_take]
    have : min c (c + 1) = c := by omega
    rw [this]

theorem foldl_trimLast (cap : Nat) (tss : List Int) :
    ∀ l : List Int,
      tss.foldl (fun acc t => trimLast cap (acc ++ [t])) (trimLast cap l)
        = trimLast cap (l ++ tss) := by
  induction tss with
  | nil => intro l; simp
  | cons t rest ih =>
    intro l
    rw [List.foldl_cons, trimLast_idem_append, ih (l ++ [t])]
    simp

theorem foldl_appendTimeline_timeline (tss : List Int) :
    ∀ s : Store,
      (tss.foldl appendTimeline s).timeline
        = tss.foldl (fun acc t => trimLast timelineCap (acc ++ [t])) s.timeline := by
  induction tss with
  | nil => intro s; rfl
  | cons t rest ih =>
    intro s
    rw [List.foldl_cons, List.foldl_cons, ih]
    rfl

/-! Helper lemmas about sentiment rounding. -/

theorem round2_nonneg (q : Rat) (h : 0 ≤ q) : 0 ≤ round2 q := by
  unfold round2
  have hr : (0 : Int) ≤ round (q * 100) := by
    rw [round_eq]
    exact Int.le_floor.mpr (by push_cast; nlinarith)
  have : (0 : Rat) ≤ ((round (q * 100) : Int) : Rat) := by exact_mod_cast hr
  positivity

theorem round2_err (q : Rat) : |round2 q - q| ≤ 1 / 200 := by
  unfold round2
  have h := abs_sub_round (q * 100)
  have heq : ((round (q * 100) : Int) : Rat) / 100 - q
      = -((q * 100 - ((round (q * 100) : Int) : Rat)) / 100) := by ring
  rw [heq, abs_neg, abs_div]
  have h100 : |(100 : Rat)| = 100 := by norm_num
  rw [h100]
  rw [div_le_div_iff₀ (by norm_num) (by norm_num)]
  nlinarith [h]

theorem formatSentiment_nil : formatSentiment [] = ⟨0, 0, 0, 0, 0, 0⟩ := by
  simp [formatSentiment, natOf, round2, List.find?]

/-! Helper lemmas about 7TV match deduplication and emote-tag parsing. -/

theorem matchGo_countP_of_mem (lookup : List (String × SevenTVEmote)) (k : String) :
    ∀ (toks : List String) (seen : List String), k ∈ seen →
      (matchGo lookup seen toks).countP (fun em => decide (em.key = k)) = 0 := by
  intro toks
  induction toks with
  | nil => intro seen _; simp [matchGo]
  | cons tok rest ih =>
    intro seen hk
    simp only [matchGo]
    cases hfind : lookup.find? (fun p => decide (p.1 = pyLower tok)) with
    | none => exact ih seen hk
    | some p =>
      by_cases hseen : p.2.key ∈ seen
      · simp only [if_pos hseen]
        exact ih seen hk
      · simp only [if_neg hseen, List.countP_cons]
        have hne : ¬(p.2.key = k) := fun h => hseen (h ▸ hk)
        have h0 := ih (p.2.key :: seen) (List.mem_cons_of_mem _ hk)
        simp [h0, hne]

theorem matchGo_countP_le_one (lookup : List (String × SevenTVEmote)) (k : String) :
    ∀ (toks : List String) (seen : List String),
      (matchGo lookup seen toks).countP (fun em => decide (em.key = k)) ≤ 1 := by
  intro toks
  induction toks with
  | nil => intro seen; simp [matchGo]
  | cons tok rest ih =>
    intro seen
    simp only [matchGo]
    cases hfind : lookup.find? (fun p => decide (p.1 = pyLower tok)) with
    | none => exact ih seen
    | some p =>
      by_cases hseen : p.2.key ∈ seen
      · simp only [if_pos hseen]
        exact ih seen
      · simp only [if_neg hseen, List.countP_cons]
        by_cases hkey : p.2.key = k
        · subst hkey
          have h0 := matchGo_countP_of_mem lookup p.2.key rest (p.2.key :: seen)
            (List.mem_cons_self _ _)
          simp [h0]
        · have h1 := ih (p.2.key :: seen)
          simp [hkey]
          omega

theorem matchMessage_countP_le_one (lookup : List (String × SevenTVEmote))
    (content : String) (k : String) :
    (matchMessage lookup content).countP (fun em => decide (em.key = k)) ≤ 1 := by
  unfold matchMessage
  split
  · simp
  · exact matchGo_countP_le_one lookup k (tokenize content) []

theorem splitOnChar_ne_nil (sep : Char) : ∀ l : List Char, splitOnChar sep l ≠ [] := by
  intro l
  induction l with
  | nil => simp [splitOnChar]
  | cons c rest ih =>
    simp only [splitOnChar]
    by_cases hc : c = sep
    · simp [hc]
    · simp only [if_neg hc]
      cases hr : splitOnChar sep rest with
      | nil => exact absurd hr ih
      | cons q qs => simp

theorem sep_not_mem_splitOnChar (sep : Char) :
    ∀ (l : List Char) (p : List Char), p ∈ splitOnChar sep l → sep ∉ p := by
  intro l
  induction l with
  | nil =>
    intro p hp
    simp [splitOnChar] at hp
    simp [hp]
  | cons c rest ih =>
    intro p hp
    simp only [splitOnChar] at hp
    by_cases hc : c = sep
    · rw [if_pos hc] at hp
      rcases List.mem_cons.mp hp with h | h
      · simp [h]
      · exact ih p h
    · rw [if_neg hc] at hp
      cases hr : splitOnChar sep rest with
      | nil => exact absurd hr (splitOnChar_ne_nil sep rest)
      | cons q qs =>
        rw [hr] at hp
        rcases List.mem_cons.mp hp with h | h
        · subst h
          intro hmem
          rcases List.mem_cons.mp hmem with h1 | h1
          · exact hc h1.symm
          · have hq : q ∈ splitOnChar sep rest := by rw [hr]; exact List.mem_cons_self _ _
            exact ih q hq h1
        · have hpq : p ∈ splitOnChar sep rest := by rw [hr]; exact List.mem_cons_of_mem _ h
          exact ih p hpq

theorem parseSpan_fst (content : String) (emoteId : String) (span : List Char)
    (i n : String) (h : (i, n) ∈ parseSpan content emoteId span) : i = emoteId := by
  unfold parseSpan at h
  split at h
  · simp at h
  · split at h
    · split at h
      · simp at h
        exact h.1
      · simp at h
    · simp at h

theorem parseEntry_fst (content : String) (entry : List Char) (i n : String)
    (h : (i, n) ∈ parseEntry content entry) : ':' ∉ i.data := by
  unfold parseEntry at h
  split at h
  · simp at h
  · split at h
    next idPart positions heq =>
      rcases List.mem_flatMap.mp h with ⟨span, _, hspan⟩
      have hi : i = ⟨idPart⟩ := parseSpan_fst content ⟨idPart⟩ span i n hspan
      subst hi
      have hmem : idPart ∈ splitOnChar ':' entry := by
        rw [heq]; exact List.mem_cons_self _ _
      exact sep_not_mem_splitOnChar ':' entry idPart hmem
    next =>
      simp at h

theorem tagEmotes_fst (content : String) (t : String) (i n : String)
    (h : (i, n) ∈ tagEmotes content t) : ':' ∉ i.data := by
  rcases List.mem_flatMap.mp h with ⟨entry, _, hentry⟩
  exact parseEntry_fst content entry i n hentry

theorem textualEmotes_fst (content : String) (i n : String)
    (h : (i, n) ∈ textualEmotes content) : i ∈ knownTextualEmotes := by
  rcases List.mem_flatMap.mp h with ⟨tok, _, htok⟩
  by_cases h1 : tok ∈ knownTextualEmotes
  · rw [if_pos h1] at htok
    simp at htok
    exact htok.1 ▸ h1
  · rw [if_neg h1] at htok
    by_cases h2 : pyUpper tok ∈ knownTextualEmotes
    · rw [if_pos h2] at htok
      simp at htok
      exact htok.1 ▸ h2
    · rw [if_neg h2] at htok
      simp at htok

theorem knownTextualEmotes_no_colon : ∀ i ∈ knownTextualEmotes, ':' ∉ i.data := by
  decide

theorem tagBranch_fst (content : String) (tags : List (String × String))
    (i n : String) (h : (i, n) ∈ tagBranch content tags) : ':' ∉ i.data := by
  unfold tagBranch at h
  split at h
  next t _ =>
    split at h
    · simp at h
    · exact tagEmotes_fst content t i n h
  next =>
    simp at h

theorem extractEmotes_fst_no_colon (content : String) (tags : List (String × String))
    (i n : String) (h : (i, n) ∈ extractEmotes content tags) : ':' ∉ i.data := by
  unfold extractEmotes at h
  split at h
  · exact knownTextualEmotes_no_colon i (textualEmotes_fst content i n h)
  · exact tagBranch_fst content tags i n h

theorem extractEmotes_countP_colon (content : String) (tags : List (String × String))
    (k : String) (hk : ':' ∈ k.data) :
    (extractEmotes content tags).countP (fun p => decide (p.1 = k)) = 0 := by
  rw [List.countP_eq_zero]
  intro p hp hpk
  have h1 : p.1 = k := of_decide_eq_true hpk
  have h2 : ':' ∉ p.1.data := extractEmotes_fst_no_colon content tags p.1 p.2 (by simpa using hp)
  exact h2 (h1 ▸ hk)

/-! Claim theorems. -/

/-- C1: the claim states that every real dequeued event receives exactly one
sentiment-tally update and exactly one timeline append regardless of 7TV
matches.  The code violates this: in `_message_worker` the calls to
`update_sentiment` and `append_timeline` sit inside `if custom_emotes:`, so
a real event matching no custom emote gets neither.  This theorem evaluates
the worker on one such event: the message counter shows the event was fully
dequeued and processed, yet the sentiment hash and the timeline stay empty. -/
theorem C1_event_without_custom_match_skips_sentiment_and_timeline :
    (outcomeStore (workerRun envNoCustom 999 freshStore [some evPlain])).messages = some 1
    ∧ (outcomeStore (workerRun envNoCustom 999 freshStore [some evPlain])).sentCounts = []
    ∧ (outcomeStore (workerRun envNoCustom 999 freshStore [some evPlain])).sentSums = []
    ∧ (outcomeStore (workerRun envNoCustom 999 freshStore [some evPlain])).timeline = [] := by
  refine ⟨by decide, by decide, by decide, by decide⟩

/-- C2: the claim states that dequeuing the drain sentinel — including as
the very first item — exits the loop without raising and without any store
mutation attributable to the sentinel.  The code violates this: lines
178-193 of main.py sit outside `if not terminate:` and run for the sentinel
on stale locals.  First conjunct: a sentinel as first item raises
`UnboundLocalError` (`analysis` never assigned), so the loop exits via the
exception, not the `break`.  Remaining conjuncts: a sentinel dequeued after
a single `KEKW` message re-applies the previous event's emote increments —
one message, but the emote count ends at 2. -/
theorem C2_sentinel_raises_or_reapplies_stale_event :
    workerRun envKekw 999 freshStore [none]
      = WorkerOutcome.crashed PyError.unboundLocal freshStore
    ∧ (outcomeStore (workerRun envKekw 999 freshStore [some evKekw, none])).messages = some 1
    ∧ natOf (outcomeStore (workerRun envKekw 999 freshStore [some evKekw, none])).emotes "KEKW" = 2 := by
  refine ⟨by decide, by decide, by decide⟩

/-- C4 counterexample: the claim states that every store write primitive
refreshes the expiry of the whole session namespace including the `info`
key.  Concretely false: `increment_message_count` leaves the `info` expiry
untouched, and `close_session` refreshes no expiry at all. -/
theorem C4_counterexample :
    (incrementMessageCount Store.empty).ttl.info ≠ sessionTTL
    ∧ (closeSession Store.empty "stopped" "2024-01-01T00:00:00+00:00").ttl.info ≠ sessionTTL
    ∧ (closeSession Store.empty "stopped" "2024-01-01T00:00:00+00:00").ttl = TTLs.zero := by
  refine ⟨by decide, by decide, by decide⟩

/-- C4 (amended): each write primitive refreshes the expiry of exactly the
keys it writes — the message counter, chatters, emotes plus emote names
(only for a nonempty batch), emote images (only for a nonempty URL),
sentiment, and timeline keys respectively — and `close_session` refreshes
no expiry. -/
theorem C4_write_primitives_refresh_their_own_keys :
    ∀ (s : Store) (u : String) (pairs : List (String × String)) (eid url lbl : String)
      (sc : Rat) (ts : Int) (st ea : String),
      (incrementMessageCount s).ttl = { s.ttl with messages := sessionTTL }
      ∧ (incrementChatter s u).ttl = { s.ttl with chatters := sessionTTL }
      ∧ (incrementEmotes s pairs).ttl =
          (if pairs = [] then s.ttl
           else { s.ttl with emotes := sessionTTL, emoteNames := sessionTTL })
      ∧ (setEmoteImage s eid url).ttl =
          (if url = "" then s.ttl else { s.ttl with emoteImages := sessionTTL })
      ∧ (updateSentiment s lbl sc).ttl = { s.ttl with sentiment := sessionTTL }
      ∧ (appendTimeline s ts).ttl = { s.ttl with timeline := sessionTTL }
      ∧ (closeSession s st ea).ttl = s.ttl := by
  intro s u pairs eid url lbl sc ts st ea
  refine ⟨rfl, rfl, ?_, ?_, rfl, rfl, rfl⟩
  · unfold incrementEmotes
    split <;> rfl
  · unfold setEmoteImage
    split <;> rfl

theorem stopSessionRun_not_mem (reg : List String) (s : Store) (sid : String)
    (ft : Bool) (ea : String) (ts : Int) (h : sid ∉ reg) :
    stopSessionRun reg s sid ft ea ts = (reg, s) := by
  simp [stopSessionRun, h]

/-- C5: stopping a session whose identifier is no longer in the registry is
a no-op — registry and store are returned unchanged, so no second shutdown
timeline entry is appended — and consequently a timer firing after an
explicit stop has no effect. -/
theorem C5_stop_of_absent_session_is_noop :
    (∀ (reg : List String) (s : Store) (sid : String) (ft : Bool) (ea : String) (ts : Int),
        sid ∉ reg → stopSessionRun reg s sid ft ea ts = (reg, s))
    ∧ (∀ (reg : List String) (s : Store) (sid ea1 : String) (ts1 : Int) (ea2 : String)
          (ts2 : Int), reg.Nodup → sid ∈ reg →
        stopSessionRun (stopSessionRun reg s sid false ea1 ts1).1
            (stopSessionRun reg s sid false ea1 ts1).2 sid true ea2 ts2
          = stopSessionRun reg s sid false ea1 ts1) := by
  constructor
  · exact stopSessionRun_not_mem
  · intro reg s sid ea1 ts1 ea2 ts2 hnd hin
    have h1 : (stopSessionRun reg s sid false ea1 ts1).1 = reg.erase sid := by
      simp [stopSessionRun, hin]
    have h2 : sid ∉ (stopSessionRun reg s sid false ea1 ts1).1 := by
      rw [h1]; exact hnd.not_mem_erase
    rw [stopSessionRun_not_mem _ _ _ _ _ _ h2]

/-- C5 witness: concrete instances of both conjuncts — stopping an unknown
identifier and a timer firing after an explicit stop. -/
theorem C5_witness :
    stopSessionRun ["sessionaaaa"] Store.empty "sessionbbbb" false "e" 7
      = (["sessionaaaa"], Store.empty)
    ∧ stopSessionRun (stopSessionRun ["sessionaaaa"] Store.empty "sessionaaaa" false "e1" 7).1
        (stopSessionRun ["sessionaaaa"] Store.empty "sessionaaaa" false "e1" 7).2
        "sessionaaaa" true "e2" 8
      = stopSessionRun ["sessionaaaa"] Store.empty "sessionaaaa" false "e1" 7 :=
  ⟨C5_stop_of_absent_session_is_noop.1 _ _ _ _ _ _ (by decide),
   C5_stop_of_absent_session_is_noop.2 _ _ _ _ _ _ _ (by decide) (by decide)⟩

/-- C6: the timeline never exceeds the 1200-entry cap — the bound holds
after every single `append_timeline`, because the store operation itself
trims — and a session that starts from an empty timeline holds exactly the
most recent (at most 1200) appended timestamps in order. -/
theorem C6_timeline_capped :
    (∀ (s : Store) (ts : Int), ((appendTimeline s ts).timeline).length ≤ timelineCap)
    ∧ (∀ (tss : List Int) (s : Store), s.timeline = [] →
        (tss.foldl appendTimeline s).timeline = (tss.reverse.take timelineCap).reverse) := by
  constructor
  · intro s ts
    exact trimLast_length_le timelineCap (s.timeline ++ [ts])
  · intro tss s h
    rw [foldl_appendTimeline_timeline, h]
    exact foldl_trimLast timelineCap tss []

/-- C6 witness: appending two timestamps to a fresh timeline keeps both in
order. -/
theorem C6_witness :
    (([5, 6] : List Int).foldl appendTimeline Store.empty).timeline = [5, 6] := by
  have h := C6_timeline_capped.2 [5, 6] Store.empty rfl
  rw [h]
  decide

/-- C7: `getStats` on an identifier with no session metadata fails with 404,
while a freshly initialized session with zero events yields a valid
all-zero statistics object: message count 0, chatter count 0, zero
messages per minute, empty leaderboards and an all-zero sentiment
summary. -/
theorem C7_stats_missing_vs_fresh :
    (∀ nowSec : Int, getStatsEndpoint Store.empty nowSec = Except.error 404)
    ∧ (∀ (channel : String) (duration : Nat) (startedAt : String) (nowSec : Int),
        getStatsEndpoint (initializeSession channel duration startedAt) nowSec
          = Except.ok
              { sessionInfo := [("channel", pyLower channel),
                                ("duration", toString duration),
                                ("status", "active"), ("started_at", startedAt)],
                messageCount := 0, chatterCount := 0, messagesPerMinute := 0,
                topChatters := [], topEmotes := [],
                sentiment := ⟨0, 0, 0, 0, 0, 0⟩ }) := by
  constructor
  · intro nowSec; rfl
  · intro channel duration startedAt nowSec
    have hne : (getStats (initializeSession channel duration startedAt) nowSec).sessionInfo
        ≠ [] := by
      simp [getStats, initializeSession]
    unfold getStatsEndpoint
    rw [if_neg hne]
    unfold getStats initializeSession
    simp [Store.empty, countRecent, zrevrange, sortLe, formatTopEmotes, formatSentiment_nil]

/-- C3 counterexample: the claim states that an all-zero (or absent) tally
formats with the 100-percent-neutral convention.  The code divides by
`max(0, 1) = 1`, so every percentage — including neutral — is 0.00, not
100.00. -/
theorem C3_counterexample :
    (formatSentiment []).positive = 0 ∧ (formatSentiment []).negative = 0
    ∧ (formatSentiment []).neutral = 0
    ∧ (formatSentiment []).neutralPct = 0
    ∧ (formatSentiment []).neutralPct ≠ 100 := by
  rw [formatSentiment_nil]
  norm_num

/-- C3 (amended): when all three counts are zero or absent the formatted
summary is counts 0/0/0 with all three percentages 0.00; for any non-empty
tally no percentage is negative (none can be NaN over the rationals) and
the three percentages sum to 100 within 3/200, the worst combined
two-decimal rounding error. -/
theorem C3_sentiment_percentages :
    ∀ sent : List (String × Nat),
      ((natOf sent "positive" = 0 ∧ natOf sent "negative" = 0 ∧ natOf sent "neutral" = 0) →
          formatSentiment sent = ⟨0, 0, 0, 0, 0, 0⟩)
      ∧ (1 ≤ natOf sent "positive" + natOf sent "negative" + natOf sent "neutral" →
          0 ≤ (formatSentiment sent).positivePct
          ∧ 0 ≤ (formatSentiment sent).negativePct
          ∧ 0 ≤ (formatSentiment sent).neutralPct
          ∧ |(formatSentiment sent).positivePct + (formatSentiment sent).negativePct
              + (formatSentiment sent).neutralPct - 100| ≤ 3 / 200) := by
  intro sent
  constructor
  · rintro ⟨h1, h2, h3⟩
    simp [formatSentiment, h1, h2, h3, round2]
  · intro h
    simp only [formatSentiment]
    have hmax : max (natOf sent "positive" + natOf sent "negative" + natOf sent "neutral") 1
        = natOf sent "positive" + natOf sent "negative" + natOf sent "neutral" :=
      Nat.max_eq_left h
    rw [hmax]
    set p := natOf sent "positive" with hp
    set n := natOf sent "negative" with hn
    set u := natOf sent "neutral" with hu
    have hT : (0 : Rat) < ((p + n + u : Nat) : Rat) := by
      have : 0 < p + n + u := h
      exact_mod_cast this
    have hTne : ((p + n + u : Nat) : Rat) ≠ 0 := ne_of_gt hT
    have hx1 : (0 : Rat) ≤ (p : Rat) / ((p + n + u : Nat) : Rat) * 100 := by positivity
    have hx2 : (0 : Rat) ≤ (n : Rat) / ((p + n + u : Nat) : Rat) * 100 := by positivity
    have hx3 : (0 : Rat) ≤ (u : Rat) / ((p + n + u : Nat) : Rat) * 100 := by positivity
    refine ⟨round2_nonneg _ hx1, round2_nonneg _ hx2, round2_nonneg _ hx3, ?_⟩
    have hcast : ((p : Rat) + (n : Rat) + (u : Rat)) = ((p + n + u : Nat) : Rat) := by
      push_cast
      ring
    have hsum : (p : Rat) / ((p + n + u : Nat) : Rat) * 100
        + (n : Rat) / ((p + n + u : Nat) : Rat) * 100
        + (u : Rat) / ((p + n + u : Nat) : Rat) * 100 = 100 := by
      calc (p : Rat) / ((p + n + u : Nat) : Rat) * 100
            + (n : Rat) / ((p + n + u : Nat) : Rat) * 100
            + (u : Rat) / ((p + n + u : Nat) : Rat) * 100
          = ((p : Rat) + (n : Rat) + (u : Rat)) / ((p + n + u : Nat) : Rat) * 100 := by ring
        _ = ((p + n + u : Nat) : Rat) / ((p + n + u : Nat) : Rat) * 100 := by rw [hcast]
        _ = 100 := by rw [div_self hTne]; ring
    have e1 := round2_err ((p : Rat) / ((p + n + u : Nat) : Rat) * 100)
    have e2 := round2_err ((n : Rat) / ((p + n + u : Nat) : Rat) * 100)
    have e3 := round2_err ((u : Rat) / ((p + n + u : Nat) : Rat) * 100)
    have hrw : round2 ((p : Rat) / ((p + n + u : Nat) : Rat) * 100)
        + round2 ((n : Rat) / ((p + n + u : Nat) : Rat) * 100)
        + round2 ((u : Rat) / ((p + n + u : Nat) : Rat) * 100) - 100
        = (round2 ((p : Rat) / ((p + n + u : Nat) : Rat) * 100)
            - (p : Rat) / ((p + n + u : Nat) : Rat) * 100)
          + (round2 ((n : Rat) / ((p + n + u : Nat) : Rat) * 100)
            - (n : Rat) / ((p + n + u : Nat) : Rat) * 100)
          + (round2 ((u : Rat) / ((p + n + u : Nat) : Rat) * 100)
            - (u : Rat) / ((p + n + u : Nat) : Rat) * 100) := by
      linear_combination hsum
    rw [hrw]
    refine le_trans (abs_add_three _ _ _) ?_
    linarith [e1, e2, e3]

/-- C3 witness: the empty-tally branch at the empty hash, and
non-negativity of the positive percentage at a concrete non-empty tally. -/
theorem C3_witness :
    formatSentiment [] = ⟨0, 0, 0, 0, 0, 0⟩
    ∧ 0 ≤ (formatSentiment [("positive", 3)]).positivePct :=
  ⟨(C3_sentiment_percentages []).1 ⟨rfl, rfl, rfl⟩,
   ((C3_sentiment_percentages [("positive", 3)]).2 (by decide)).1⟩

/-- C8: across any sequence of `increment_emotes` calls, the recorded
display name of an identifier is the one supplied by the first pair
mentioning it (`HSETNX` — first writer wins, later different names do not
overwrite), while the occurrence count still grows by every mention. -/
theorem C8_first_writer_wins_names :
    ∀ (calls : List (List (String × String))) (s : Store) (emoteId : String),
      hget ((calls.foldl incrementEmotes s).emoteNames) emoteId
        = (hget s.emoteNames emoteId).or
            ((calls.flatten.find? (fun p => decide (p.1 = emoteId))).map (fun p => p.2))
      ∧ natOf ((calls.foldl incrementEmotes s).emotes) emoteId
        = natOf s.emotes emoteId
            + calls.flatten.countP (fun p => decide (p.1 = emoteId)) := by
  intro calls
  induction calls with
  | nil => intro s k; simp
  | cons c rest ih =>
    intro s k
    constructor
    · rw [List.foldl_cons, (ih (incrementEmotes s c) k).1, incrementEmotes_names,
        List.flatten_cons, List.find?_append, optionMapOr, Option.or_assoc]
    · rw [List.foldl_cons, (ih (incrementEmotes s c) k).2, incrementEmotes_counts,
        List.flatten_cons, List.countP_append]
      omega

/-- C9: `increment_chatter` folds the username to lower case before
touching the leaderboard, so usernames differing only in letter case
update the same member, and a member's score never decreases under an
increment. -/
theorem C9_chatter_case_fold_monotone :
    (∀ (s : Store) (u v : String), pyLower u = pyLower v →
        incrementChatter s u = incrementChatter s v)
    ∧ (∀ (s : Store) (u m : String),
        natOf s.chatters m ≤ natOf (incrementChatter s u).chatters m) := by
  constructor
  · intro s u v h
    simp [incrementChatter, h]
  · intro s u m
    simp only [incrementChatter]
    rw [natOf_bumpNat]
    omega

/-- C9 witness: `Foo` and `foo` hit the same leaderboard member, and the
score of `foo` does not decrease. -/
theorem C9_witness :
    incrementChatter Store.empty "Foo" = incrementChatter Store.empty "foo"
    ∧ natOf Store.empty.chatters "foo"
        ≤ natOf (incrementChatter Store.empty "Foo").chatters "foo" :=
  ⟨C9_chatter_case_fold_monotone.1 _ _ _ (by decide),
   C9_chatter_case_fold_monotone.2 _ _ _⟩

/-- C10: `match_message` deduplicates by emote key, so a 7TV emote is
matched at most once per message and — since 7TV keys carry a `:` while
tag-derived identifiers never can — one message raises a 7TV emote's count
by at most 1 through the worker's batched list; Twitch tag-derived emotes
are emitted once per occurrence span (the concrete two-span tag counts 2
where the same 7TV emote appearing twice counts 1). -/
theorem C10_custom_dedup_tag_per_span :
    (∀ (lookup : List (String × SevenTVEmote)) (content k : String),
        (matchMessage lookup content).countP (fun em => decide (em.key = k)) ≤ 1)
    ∧ (∀ (lookup : List (String × SevenTVEmote)) (content : String)
          (tags : List (String × String)) (k : String) (s : Store), ':' ∈ k.data →
        natOf ((incrementEmotes s (extractEmotes content tags
            ++ (matchMessage lookup content).map (fun em => (em.key, em.name)))).emotes) k
          ≤ natOf s.emotes k + 1)
    ∧ (extractEmotes "Kappa hi Kappa" [("emotes", "25:0-4,9-13")]).countP
        (fun p => decide (p.1 = "25")) = 2
    ∧ (matchMessage [("kappa", ⟨"7tv:k1", "Kappa", "u"⟩)] "Kappa hi Kappa").countP
        (fun em => decide (em.key = "7tv:k1")) = 1 := by
  refine ⟨matchMessage_countP_le_one, ?_, by decide, by decide⟩
  intro lookup content tags k s hk
  rw [incrementEmotes_counts, List.countP_append,
    extractEmotes_countP_colon content tags k hk]
  have h1 : ((matchMessage lookup content).map (fun em => (em.key, em.name))).countP
      (fun p => decide (p.1 = k))
      = (matchMessage lookup content).countP (fun em => decide (em.key = k)) := by
    rw [List.countP_map]
    rfl
  rw [h1]
  have h2 := matchMessage_countP_le_one lookup content k
  omega

/-- C10 witness: the batched emote list of a message containing the 7TV
emote `Kappa` twice raises the `7tv:k1` count by at most one. -/
theorem C10_witness :
    natOf ((incrementEmotes Store.empty (extractEmotes "Kappa hi Kappa" []
        ++ (matchMessage [("kappa", ⟨"7tv:k1", "Kappa", "u"⟩)] "Kappa hi Kappa").map
            (fun em => (em.key, em.name)))).emotes) "7tv:k1"
      ≤ natOf Store.empty.emotes "7tv:k1" + 1 :=
  C10_custom_dedup_tag_per_span.2.1 _ _ _ _ _ (by decide)

end TwitchPulse
